import Mathlib

/-!
Verification of the `testtext_python` repository: shallow embedding of the two
client wrappers (`src/testtext/__init__.py`, class `TestText`, and
`src/touchstone/tests.py`, class `TouchstoneTests`) together with theorems
settling the frozen claims about login validation, upload input
normalization, size checking, session lifecycle, response scraping and the
generic request passthrough.

Conventions of the embedding:
- Python `str` values are modelled as Lean `String` (or `List Char` where the
  code manipulates them character-wise); Python `bytes` as `List Nat`.
- HTTP traffic is modelled by environments carrying the responses the remote
  server would produce; each operation returns the list of requests it issued
  together with its outcome, so "no network call" is the statement that the
  request list is empty.
- Python exceptions are modelled by `Except PyErr`; `assert c, e` raises `e`
  when `c` is false.
- BeautifulSoup documents are modelled by an `Html` tree; a parsed document is
  represented by a wrapper element whose children are the top-level nodes, and
  the soup queries search the descendants of the node they are called on, in
  document (pre)order, exactly as `find` / `find_all` do.
-/

deriving instance DecidableEq for Except

/-- Python `bytes` content: a list of byte values. -/
abbrev Bytes := List Nat

/-- The Python exceptions raised by the two clients. -/
inductive PyErr where
  | valueError (msg : String)
  | typeError (msg : String)
  | assertionError (msg : String)
  | connectionError (msg : String)
  | httpError (msg : String)
  | attributeError (msg : String)
  | fileNotFoundError
deriving DecidableEq, Repr

mutual

/-- An HTML node as exposed by BeautifulSoup: a tag with attributes and
children, or a navigable string. -/
inductive Html where
  | elem (tag : String) (attrs : List (String × String)) (children : HtmlList)
  | text (s : String)
deriving DecidableEq

/-- A list of sibling HTML nodes (a separate inductive so that all tree
traversals are structural and evaluate inside the kernel). -/
inductive HtmlList where
  | nil
  | cons (h : Html) (t : HtmlList)
deriving DecidableEq

end

/-- Build an `HtmlList` from a Lean list (fixture convenience). -/
def htmlListOf : List Html → HtmlList
  | [] => .nil
  | h :: t => .cons h (htmlListOf t)

/-- First value of the attribute with the given name (`tag.get(name)`). -/
def attrValue (attrs : List (String × String)) (name : String) : Option String :=
  (attrs.find? (fun kv => kv.1 == name)).map (fun kv => kv.2)

/-- `tag.get(name)` on a node; strings have no attributes. -/
def Html.attr (h : Html) (name : String) : Option String :=
  match h with
  | .elem _ attrs _ => attrValue attrs name
  | .text _ => none

/-- Whether the node is a tag with the given name. -/
def Html.tagIs (h : Html) (t : String) : Bool :=
  match h with
  | .elem tag _ _ => tag == t
  | .text _ => false

/-- Whether the node has the given attribute with exactly the given value
(BeautifulSoup attrs-dict matching for ordinary attributes). -/
def Html.attrIs (h : Html) (name val : String) : Bool :=
  h.attr name == some val

/-- Whitespace-splitting of a character list (Python `s.split()`):
maximal whitespace-free words, empty words dropped.  `cur` accumulates the
current word in reverse. -/
def wordsGo (cur : List Char) : List Char → List (List Char)
  | [] => if cur.isEmpty then [] else [cur.reverse]
  | c :: rest =>
    if c.isWhitespace then
      if cur.isEmpty then wordsGo [] rest else cur.reverse :: wordsGo [] rest
    else wordsGo (c :: cur) rest

/-- Python `s.split()` on a character list. -/
def wordsOf (s : List Char) : List (List Char) :=
  wordsGo [] s

/-- BeautifulSoup class matching: the `class` attribute is whitespace-split
and the sought class must be one of the resulting words. -/
def Html.hasClass (h : Html) (c : String) : Bool :=
  (wordsOf ((h.attr "class").getD "").data).contains c.data

mutual

/-- All tag nodes strictly below the given node, in document (pre)order. -/
def Html.descendants : Html → List Html
  | .text _ => []
  | .elem _ _ cs => htmlListDesc cs

/-- All tag nodes of a forest, in document (pre)order: each node, followed by
its own descendants, followed by its later siblings. -/
def htmlListDesc : HtmlList → List Html
  | .nil => []
  | .cons h t =>
    (match h with
     | .elem tag attrs cs => [Html.elem tag attrs cs]
     | .text _ => []) ++ Html.descendants h ++ htmlListDesc t

end

/-- `node.find_all(matching)` — every descendant tag satisfying the filter,
in document order. -/
def htmlFindAll (p : Html → Bool) (h : Html) : List Html :=
  h.descendants.filter p

/-- `node.find(matching)` — the first descendant tag satisfying the filter. -/
def htmlFind (p : Html → Bool) (h : Html) : Option Html :=
  (htmlFindAll p h).head?

mutual

/-- The navigable strings at or below a node, in document order. -/
def Html.strings : Html → List String
  | .text s => [s]
  | .elem _ _ cs => htmlListStrings cs

/-- The navigable strings of a forest, in document order. -/
def htmlListStrings : HtmlList → List String
  | .nil => []
  | .cons h t => Html.strings h ++ htmlListStrings t

end

/-- Python `s.strip()` on a character list: drop whitespace from both ends. -/
def stripWs (s : List Char) : List Char :=
  ((s.dropWhile Char.isWhitespace).reverse.dropWhile Char.isWhitespace).reverse

/-- `tag.get_text(strip=True)`: the concatenation of the stripped navigable
strings at or below the node. -/
def Html.getTextStrip (h : Html) : String :=
  String.mk (List.flatten (h.strings.map (fun s => stripWs s.data)))

/-- Substring containment on character lists. -/
def listContains (needle hay : List Char) : Bool :=
  hay.tails.any (fun t => needle.isPrefixOf t)

/-- Python `needle in hay` on strings: substring containment. -/
def pyInStr (needle hay : String) : Bool :=
  listContains needle.data hay.data

/-- Python `s.rpartition('.')[-1]`: the part after the last dot, or the whole
string when it has no dot. -/
def rpartLastDot (s : List Char) : List Char :=
  (s.reverse.takeWhile (fun c => c != '.')).reverse

/-- Python `s.replace(pat, '')` (left-to-right, non-overlapping), fuelled by
the length of the string; the code only uses non-empty patterns, for which
the initial fuel `s.length` is always enough. -/
def replaceAllGo (pat : List Char) : Nat → List Char → List Char
  | _, [] => []
  | 0, s => s
  | fuel + 1, c :: rest =>
    if pat.isPrefixOf (c :: rest) && !pat.isEmpty then
      replaceAllGo pat fuel ((c :: rest).drop pat.length)
    else
      c :: replaceAllGo pat fuel rest

/-- Python `s.replace(pat, '')`. -/
def pyReplaceEmpty (pat s : List Char) : List Char :=
  replaceAllGo pat s.length s

/-- Python `s.strip('/')`: drop `/` characters from both ends. -/
def pyStripSlash (s : List Char) : List Char :=
  ((s.dropWhile (fun c => c == '/')).reverse.dropWhile (fun c => c == '/')).reverse

/-- Python `s.split(sep)` for a non-empty separator (left-to-right,
non-overlapping occurrences), fuelled by the length of the string, which is
always enough fuel since every step consumes at least one character. -/
def pySplitGo (sep : List Char) : Nat → List Char → List (List Char)
  | _, [] => [[]]
  | 0, s => [s]
  | fuel + 1, c :: rest =>
    if sep.isPrefixOf (c :: rest) && !sep.isEmpty then
      [] :: pySplitGo sep fuel ((c :: rest).drop sep.length)
    else
      match pySplitGo sep fuel rest with
      | [] => [[c]]
      | g :: gs => (c :: g) :: gs

/-- Python `s.split(sep)` for a non-empty separator. -/
def pySplit (sep s : List Char) : List (List Char) :=
  pySplitGo sep s.length s

/-- Python `xs[-1]` on a non-empty list (`pySplit` never returns `[]`). -/
def pyLastD (l : List (List Char)) : List Char :=
  l.getLastD []

/-- Python `s.lower()` (kernel-computable). -/
def strLower (s : String) : String :=
  String.mk (s.data.map Char.toLower)

/-- Python `s.upper()` (kernel-computable). -/
def strUpper (s : String) : String :=
  String.mk (s.data.map Char.toUpper)

/-- Python `s.endswith(suffix)` (kernel-computable). -/
def strEndsWith (s suffix : String) : Bool :=
  suffix.data.reverse.isPrefixOf s.data.reverse

/-- Python `s.startswith(p)` on character lists. -/
def strStartsWith (s p : List Char) : Bool :=
  p.isPrefixOf s

/-! ## TestText (`src/testtext/__init__.py`) -/

/-- `TestText.url` class attribute. -/
def tt_url : String := "https://testtext.com"

/-- `TestText.start_uri`. -/
def tt_start_uri : String := "/login"

/-- `TestText.login_uri`. -/
def tt_login_uri : String := "/login"

/-- `TestText.email_upload_uri`. -/
def tt_email_upload_uri : String := "/upload"

/-- `TestText.sms_upload_uri`. -/
def tt_sms_upload_uri : String := "/uploadsms"

/-- `TestText.start_check` (empty: the containment test is always true). -/
def tt_start_check : String := ""

/-- `TestText.login_check`. -/
def tt_login_check : String := "Start Your Test"

/-- `TestText.upload_check`. -/
def tt_upload_check : String := "ROLL BACK"

/-- The credentials a `TestText` instance is constructed with. -/
structure TTCreds where
  username : String
  password : String
deriving DecidableEq

/-- An HTTP response as the client consumes it: `response.text` (the body as
a string) and the BeautifulSoup parse of `response.content`. -/
structure TTResponse where
  text : String
  body : Html

/-- A request issued through the session (method and URL; the form payload
is modelled separately where a claim depends on it). -/
structure TTReq where
  method : String
  url : String
deriving DecidableEq

/-- `TestText._successful`: `check in response.text`. -/
def tt_successful (r : TTResponse) (check : String) : Bool :=
  pyInStr check r.text

/-- `TestText.__enter__`s inner `get_csrf_token`: the `value` attribute of
the first `<input name="csrf_token">`, tolerating its absence
(`... or {}` makes the result `None` instead of raising). -/
def tt_get_csrf_token (r : TTResponse) : Option String :=
  match htmlFind (fun h => h.tagIs "input" && h.attrIs "name" "csrf_token") r.body with
  | some e => e.attr "value"
  | none => none

/-- The guard at the top of `TestText.__enter__`:
`if not self.username and self.password: raise ValueError(...)`.
By Python operator precedence this is `(not username) and password`, so it is
true exactly when the username is empty and the password is non-empty. -/
def tt_missing_creds_guard (c : TTCreds) : Bool :=
  (c.username == "") && !(c.password == "")

/-- The environment of a login attempt: the responses the server returns to
the start-page GET and the login POST. -/
structure TTEnv where
  startResponse : TTResponse
  loginResponse : TTResponse

/-- `TestText.__enter__`: the guard, then a GET to the start page and a POST
to the login page (both requests are issued before any check runs), then the
`start_check` and `login_check` substring validations.  Returns the list of
issued requests together with the outcome. -/
def ttEnter (c : TTCreds) (env : TTEnv) : List TTReq × Except PyErr Unit :=
  if tt_missing_creds_guard c then
    ([], .error (.valueError "Unsuccessful Login. Missing either/both user/pass."))
  else
    let reqs := [⟨"GET", tt_url ++ tt_start_uri⟩, ⟨"POST", tt_url ++ tt_login_uri⟩]
    if !(tt_successful env.startResponse tt_start_check) then
      (reqs, .error (.valueError "Unsuccessful Session Init. Is this the correct URL?"))
    else if !(tt_successful env.loginResponse tt_login_check) then
      (reqs, .error (.valueError "Unsuccessful Login. Check the provided credentials."))
    else
      (reqs, .ok ())

/-- `TestText._get_failure_reason`: `"unauthorized"` bodies report an
authorization failure (with an extra note for the `sms` content type);
otherwise the stripped text of the first `<div role="alert">`, or
`"Unknown reason."` when there is none. -/
def tt_get_failure_reason (r : TTResponse) (content_type : String) : String :=
  if r.text == "unauthorized" then
    "unauthorized" ++ (if strLower content_type == "sms" then " (sms upload might not be permitted)" else "")
  else
    match htmlFind (fun h => h.tagIs "div" && h.attrIs "role" "alert") r.body with
    | some d => d.getTextStrip
    | none => "Unknown reason."

/-- The message of the `ValueError` that `TestText.upload` raises when the
success marker is absent (the triple-c typo is the source's). -/
def tt_upload_fail_msg (r : TTResponse) (content_type : String) : String :=
  "Unsucccessful Upload: " ++ tt_get_failure_reason r content_type

/-- `TestText.request`: `return self.session.request(*args, **kwargs)` —
every call is forwarded through the session unchecked, whatever the method. -/
def ttRequest (method url : String) : List TTReq × Except PyErr Unit :=
  ([⟨method, url⟩], .ok ())

/-- `TestText.upload`s inner `get_upload_uri`: `email` and `sms` (case
insensitive) select their upload paths; anything else is a `ValueError`. -/
def tt_get_upload_uri (content_type : String) : Except PyErr String :=
  if strLower content_type == "email" then .ok tt_email_upload_uri
  else if strLower content_type == "sms" then .ok tt_sms_upload_uri
  else .error (.valueError "content_type must be either one of: [email, sms]")

/-- The runtime type of the `file_data` argument of `TestText.upload`:
an open file handle (`io.TextIOWrapper` / `io.BufferedReader`, carrying the
bytes reading it would yield), a string, raw bytes, an in-memory
`io.BytesIO` buffer, or any unsupported type (`other`). -/
inductive FileInput where
  | handle (content : Bytes)
  | str (s : List Char)
  | bytes (b : Bytes)
  | buffer (b : Bytes)
  | other
deriving DecidableEq

/-- The value `parse_file_type` normalizes to: an open file handle passed
through, or a `(synthetic-filename, content)` tuple whose content is a
string or bytes. -/
inductive ParsedFile where
  | handle (content : Bytes)
  | tupleStr (filename : String) (s : List Char)
  | tupleBytes (filename : String) (b : Bytes)
deriving DecidableEq

/-- `sys.getsizeof` of a `bytes` object: the content length plus the
constant object overhead (CPython, 64-bit). -/
def getsizeofBytes (b : Bytes) : Nat := 33 + b.length

/-- `sys.getsizeof` of an ASCII `str` object: the content length plus the
constant object overhead (CPython, 64-bit). -/
def getsizeofStr (s : List Char) : Nat := 49 + s.length

/-- `sys.getsizeof` of an open file object: a small constant — the size of
the wrapper object itself, independent of how much data the file holds. -/
def getsizeofHandle : Nat := 216

/-- The dispatch chain of `TestText.upload.parse_file_type` (before the size
check): handles pass through; a string whose lower-cased part after the last
dot is `tsv` and whose length exceeds 4 is opened as a path (`open(f, 'rb')`
against the filesystem `fs`); any other string, raw bytes, and the value of
a `BytesIO` buffer are wrapped as `('filename.tsv', content)`; anything else
raises `ValueError`. -/
def parse_dispatch (fs : List Char → Option Bytes) (f : FileInput) : Except PyErr ParsedFile :=
  match f with
  | .handle c => .ok (.handle c)
  | .str s =>
    if ((rpartLastDot s).map Char.toLower == "tsv".data) && decide (s.length > 4) then
      match fs s with
      | some content => .ok (.handle content)
      | none => .error .fileNotFoundError
    else .ok (.tupleStr "filename.tsv" s)
  | .bytes b => .ok (.tupleBytes "filename.tsv" b)
  | .buffer b => .ok (.tupleBytes "filename.tsv" b)
  | .other => .error (.valueError "file argument may only be string, bytes, or io.BytesIO object.")

/-- `parse_file_type`s inner `check_file_size`: for a tuple the
`sys.getsizeof` of its second component is compared against `max_bytes`; for
anything else (an open file handle here) the `sys.getsizeof` of the object
itself — a content-independent constant — is compared. -/
def check_file_size (pf : ParsedFile) (max_bytes : Nat) : Except PyErr Unit :=
  let size := match pf with
    | .tupleStr _ s => getsizeofStr s
    | .tupleBytes _ b => getsizeofBytes b
    | .handle _ => getsizeofHandle
  if size > max_bytes then .error (.valueError "File too large.") else .ok ()

/-- `TestText.upload.parse_file_type`: the dispatch chain followed by
`check_file_size`. -/
def parse_file_type (fs : List Char → Option Bytes) (f : FileInput) (max_bytes : Nat) :
    Except PyErr ParsedFile :=
  match parse_dispatch fs f with
  | .error e => .error e
  | .ok pf =>
    match check_file_size pf max_bytes with
    | .error e => .error e
    | .ok _ => .ok pf

/-- The environment of an upload: the filesystem behind `open` and the
response the server returns to the upload POST. -/
structure TTUploadEnv where
  fs : List Char → Option Bytes
  response : TTResponse

/-- What a call to `TestText.upload` did: the requests it issued, whether it
closed the (internally held) file handle, and its outcome (`ok` carries the
hard-coded `failures: 0` count). -/
structure TTUploadOut where
  requests : List TTReq
  handleClosed : Bool
  result : Except PyErr Nat

/-- `TestText.upload`: resolve the content-type path, normalize and
size-check the file argument, POST it, close the handle if the normalized
input was one (this happens after the request, before the success check, so
it covers both the success and the raising branch), then validate the
`upload_check` marker and raise with the extracted failure reason when it is
absent. -/
def ttUpload (env : TTUploadEnv) (f : FileInput) (max_bytes : Nat) (content_type : String) :
    TTUploadOut :=
  match tt_get_upload_uri content_type with
  | .error e => ⟨[], false, .error e⟩
  | .ok uri =>
    match parse_file_type env.fs f max_bytes with
    | .error e => ⟨[], false, .error e⟩
    | .ok pf =>
      let reqs := [⟨"POST", tt_url ++ uri⟩]
      let closed := match pf with | .handle _ => true | _ => false
      if tt_successful env.response tt_upload_check then
        ⟨reqs, closed, .ok 0⟩
      else
        ⟨reqs, closed, .error (.valueError (tt_upload_fail_msg env.response content_type))⟩

/-! ## Python `with`-statement semantics and session closing -/

/-- Python `with` semantics for these clients: `__enter__` runs first; if it
raises, the block body and `__exit__` are skipped and the exception
propagates.  If `__enter__` succeeds, the body runs and `__exit__` runs
exactly once afterwards, whether or not the body raised (`__exit__` returns
`None`, so body exceptions propagate).  The second component counts how
often `__exit__` ran. -/
def pyWith {α β : Type} (enter : Except PyErr α) (body : α → Except PyErr β) :
    Except PyErr β × Nat :=
  match enter with
  | .error e => (.error e, 0)
  | .ok a => (body a, 1)

/-- `TestText.__exit__` body: a single `self.session.close()` call. -/
def tt_exit_close_calls : Nat := 1

/-- `TouchstoneTests.__exit__` body: a single `self._session.close()` call. -/
def ts_exit_close_calls : Nat := 1

/-- How many times `session.close()` runs over a whole `with` block: once
per `__exit__` run (no other code path calls `close`). -/
def closeCalls (run : Except PyErr Unit × Nat) (perExit : Nat) : Nat :=
  run.2 * perExit

/-! ## Touchstone (`src/touchstone/tests.py`) -/

/-- Default `uri` of `TouchstoneTests`. -/
def ts_uri_default : List Char := "https://touchstonetests.io".data

/-- `TouchstoneTests._get_session_tokens`, run by `__init__`: a GET to the
login page (always issued, first), then
`soup.find('input', {'name': '_csrf_token'}).get('value')` — when no such
input exists, `find` returns `None` and the `.get` call raises
`AttributeError`.  Returns the number of requests issued and the outcome
(the token value attribute, which may itself be absent without raising). -/
def ts_get_session_tokens (loginPage : Html) : Nat × Except PyErr (Option String) :=
  (1,
    match htmlFind (fun h => h.tagIs "input" && h.attrIs "name" "_csrf_token") loginPage with
    | some e => .ok (e.attr "value")
    | none => .error (.attributeError "NoneType object has no attribute get"))

/-- `TouchstoneTests.__enter__`s `check_valid_redirect`: both URLs are
normalized by deleting every `http://` and `https://` occurrence and
stripping `/` from both ends, then compared. -/
def check_valid_redirect (uri response_url : List Char) : Bool :=
  pyStripSlash (pyReplaceEmpty "https://".data (pyReplaceEmpty "http://".data response_url))
    == pyStripSlash (pyReplaceEmpty "https://".data (pyReplaceEmpty "http://".data uri))

/-- The login POST response as `__enter__` consumes it: `response.ok`
(status below 400) and `response.url` (the final URL after redirects). -/
structure TSLoginResp where
  ok : Bool
  url : List Char

/-- The validation in `TouchstoneTests.__enter__` after the login POST:
`assert login_response.ok` (an HTTPError payload), then
`assert check_valid_redirect(login_response.url)` (a ConnectionError payload
reporting incorrect credentials). -/
def tsEnter (uri : List Char) (resp : TSLoginResp) : Except PyErr Unit :=
  if !resp.ok then .error (.httpError "Non-2XX Response.")
  else if !check_valid_redirect uri resp.url then
    .error (.connectionError "Incorrect credentials.")
  else .ok ()

/-- A request issued by `TouchstoneTests.request` (headers, cookies and
files are forwarded verbatim and are not modelled). -/
structure TSReq where
  method : String
  url : List Char
  params : Option (List (String × String))
  payload : Option (List (String × String))
deriving DecidableEq

/-- URL resolution in `TouchstoneTests.request`: a URL not starting with
`https://` is joined to the configured base as `uri + '/' + url`. -/
def ts_resolve_url (uri url : List Char) : List Char :=
  if strStartsWith url "https://".data then url else uri ++ '/' :: url

/-- `TouchstoneTests.request`: resolves the URL, then dispatches on the
lower-cased method — `post` sends the payload as form data, `get` sends it
as query params, anything else raises an `HTTPError` before any request is
issued. -/
def tsRequest (uri url : List Char) (method : String)
    (payload : Option (List (String × String))) : List TSReq × Except PyErr Unit :=
  let u := ts_resolve_url uri url
  if strLower method == "post" then
    ([⟨strUpper method, u, none, payload⟩], .ok ())
  else if strLower method == "get" then
    ([⟨strUpper method, u, payload, none⟩], .ok ())
  else
    ([], .error (.httpError "POST or GET requests only."))

/-- The runtime type of the `data` argument of
`TouchstoneTests.upload_data` / `_file_to_bytes`: raw bytes, a path string,
`None` (the `filename` argument is then used as the path), or any
unsupported type. -/
inductive TSFileData where
  | bytes (b : Bytes)
  | str (path : List Char)
  | noData
  | other
deriving DecidableEq

/-- What `_file_to_bytes` returns: the bytes passed through, or an open file
handle (carrying the bytes reading it would yield). -/
inductive TSParsed where
  | bytes (b : Bytes)
  | handle (content : Bytes)
deriving DecidableEq

/-- The final `assert sys.getsizeof(data) <= 10485760` of `_file_to_bytes`:
for bytes this measures content plus constant overhead; for an open file
object it measures only the wrapper object, independently of the content. -/
def ts_size_check (p : TSParsed) : Except PyErr TSParsed :=
  let size := match p with
    | .bytes b => getsizeofBytes b
    | .handle _ => getsizeofHandle
  if size ≤ 10485760 then .ok p else .error (.assertionError "Max file size: 10MB")

/-- `TouchstoneTests._file_to_bytes`: asserts the filename suffix is one of
xls/xlsx/csv/txt, dispatches on the type of `data` (bytes pass through, a
string is opened as a path, `None` opens `filename`, anything else is a
`TypeError`), then runs the `sys.getsizeof` size assertion. -/
def ts_file_to_bytes (fs : List Char → Option Bytes) (data : TSFileData) (filename : String) :
    Except PyErr TSParsed :=
  if !(strEndsWith (strLower filename) ".xls" || strEndsWith (strLower filename) ".xlsx" ||
       strEndsWith (strLower filename) ".csv" || strEndsWith (strLower filename) ".txt") then
    .error (.assertionError "Filetype must be one of: xls, xlsx, csv, txt")
  else
    match data with
    | .bytes b => ts_size_check (.bytes b)
    | .str p =>
      match fs p with
      | some c => ts_size_check (.handle c)
      | none => .error .fileNotFoundError
    | .noData =>
      match fs filename.data with
      | some c => ts_size_check (.handle c)
      | none => .error .fileNotFoundError
    | .other => .error (.typeError "Data must be provided in one of the supported formats: Union[bytes, str]")

/-- The separator `'?file_id='` used by `upload_data` to extract the file id
from the initial-upload response URL. -/
def FIDSEP : List Char := "?file_id=".data

/-- The validation of `upload_data._initial_upload`:
`assert response.ok and ('?file_id=' in response.url)`. -/
def ts_initial_upload_ok (respOk : Bool) (respUrl : List Char) : Bool :=
  respOk && listContains FIDSEP respUrl

/-- `init_response.url.split('?file_id=')[-1]` — the file id sent as `fid`
in the finalizing payload. -/
def extract_fid (url : List Char) : String :=
  String.mk (pyLastD (pySplit FIDSEP url))

/-- `soup.find_all('', {'class': 'review_data'})[0]` — the first element of
class `review_data`; `[0]` on an empty result raises `IndexError`, modelled
as `none`. -/
def find_review_data (doc : Html) : Option Html :=
  (htmlFindAll (fun h => h.hasClass "review_data") doc).head?

/-- `data_soup.find_all('th', 'import_field')` — every `th` descendant of
class `import_field`, in document order. -/
def import_fields (d : Html) : List Html :=
  htmlFindAll (fun h => h.tagIs "th" && h.hasClass "import_field") d

/-- `field.find('option', {'selected': 'selected'})` — the first descendant
`option` whose `selected` attribute is exactly `selected`. -/
def find_selected_option (f : Html) : Option Html :=
  htmlFind (fun h => h.tagIs "option" && h.attrIs "selected" "selected") f

/-- Python-dict assignment `d[k] = v` on an insertion-ordered association
list: an existing key keeps its position and gets the new value, a new key
is appended. -/
def dictSet (d : List (String × Option String)) (k : String) (v : Option String) :
    List (String × Option String) :=
  if d.any (fun kv => kv.1 == k) then
    d.map (fun kv => if kv.1 == k then (kv.1, v) else kv)
  else d ++ [(k, v)]

/-- `upload_data._parse_table_structure`: in the first `review_data`
element, every `th` of class `import_field` contributes the entry
`columns[<data-number>] = <selected option's value>` (the empty string when
no option is selected; a missing `value` attribute stores Python `None`,
modelled as `none`; a missing `data-number` renders as the literal `None`
inside the f-string key).  A document with no `review_data` element makes
the `[0]` index raise, modelled as `none`. -/
def parse_table_structure (doc : Html) : Option (List (String × Option String)) :=
  match find_review_data doc with
  | none => none
  | some ds =>
    some ((import_fields ds).foldl
      (fun td f =>
        let key := "columns[" ++ ((f.attr "data-number").getD "None") ++ "]"
        let col : Option String :=
          match find_selected_option f with
          | some sel => sel.attr "value"
          | none => some ""
        dictSet td key col) [])

/-- The `table_data` dict `upload_data` sends to the finalizing endpoint:
`{'fid': ..., 'dateFormat': ..., **_parse_table_structure(init_response)}`. -/
def touchstone_table_data (url : List Char) (date_format : String) (doc : Html) :
    Option (List (String × Option String)) :=
  (parse_table_structure doc).map
    (fun td => td.foldl (fun d kv => dictSet d kv.1 kv.2)
      [("fid", some (extract_fid url)), ("dateFormat", some date_format)])

/-! ## Concrete fixtures used by counterexamples and witnesses -/

/-- A server environment in which both of TestText's login checks pass
(`start_check` is empty, the login body carries `login_check`). -/
def c1_env : TTEnv :=
  { startResponse := ⟨"welcome", .text ""⟩,
    loginResponse := ⟨"Click here to Start Your Test now", .text ""⟩ }

/-- A server environment in which the login body lacks `"Start Your Test"`,
so `TestText.__enter__` raises after issuing its two requests. -/
def c3_env : TTEnv :=
  { startResponse := ⟨"welcome", .text ""⟩,
    loginResponse := ⟨"Invalid credentials, try again", .text ""⟩ }

/-- An upload-failure body whose first (and only) alert-role element is a
`<span>`, not a `<div>`. -/
def c7_html : Html :=
  .elem "[document]" [] (htmlListOf [
    .elem "body" [] (htmlListOf [
      .elem "span" [("role", "alert")] (htmlListOf [.text "Boom"]),
      .elem "p" [] .nil])])

/-- The upload response built on `c7_html`; its raw text is not
`"unauthorized"` and lacks the `"ROLL BACK"` marker. -/
def c7_resp : TTResponse := ⟨"<html>failure page</html>", c7_html⟩

/-- Modelled from the claim's words (not from the source): the first element
of any tag with `role="alert"` — what "the first element with role alert"
denotes.  The source instead restricts the search to `div` tags; comparing
the two on `c7_html` settles the difference. -/
def spec_first_alert_elem (doc : Html) : Option Html :=
  htmlFind (fun h => h.attrIs "role" "alert") doc

/-- The initial-upload response document of the C6 fixture: one
`review_data` table whose two `import_field` header cells carry
`data-number` 0 (option value 5 selected) and 1 (nothing selected). -/
def c6_th0 : Html :=
  .elem "th" [("class", "import_field"), ("data-number", "0")] (htmlListOf [
    .elem "select" [] (htmlListOf [
      .elem "option" [("value", "3")] (htmlListOf [.text "ignored"]),
      .elem "option" [("selected", "selected"), ("value", "5")] (htmlListOf [.text "email"])])])

/-- Second header cell of the C6 fixture: `data-number` 1, no selection. -/
def c6_th1 : Html :=
  .elem "th" [("class", "import_field"), ("data-number", "1")] (htmlListOf [
    .elem "select" [] (htmlListOf [.elem "option" [("value", "9")] .nil])])

/-- The C6 fixture document. -/
def c6_doc : Html :=
  .elem "[document]" [] (htmlListOf [
    .elem "html" [] (htmlListOf [
      .elem "table" [("class", "review_data")] (htmlListOf [
        .elem "tr" [] (htmlListOf [c6_th0, c6_th1])])])])

/-- The table element of the C6 fixture as `find_review_data` returns it. -/
def c6_table : Html :=
  .elem "table" [("class", "review_data")] (htmlListOf [
    .elem "tr" [] (htmlListOf [c6_th0, c6_th1])])

/-- The selected option of the first header cell of the C6 fixture. -/
def c6_opt : Html :=
  .elem "option" [("selected", "selected"), ("value", "5")] (htmlListOf [.text "email"])

/-! ## Claims -/

/-- C1 (code bug): the claim says a `TestText` with an empty/missing
username or password is rejected with a configuration error before any HTTP
request.  The guard in `__enter__` is `not self.username and self.password`,
which by Python precedence is `(not username) and password`: with username
`"user"` and empty password — and even with both empty — it is false, so no
configuration error is raised and both login requests go out (the entry even
succeeds when the server accepts it).  Only an empty username combined with
a non-empty password trips the guard. -/
theorem C1_missing_password_not_rejected :
    (ttEnter ⟨"user", ""⟩ c1_env).1.length = 2 ∧
    (ttEnter ⟨"user", ""⟩ c1_env).2 = .ok () ∧
    (ttEnter ⟨"", ""⟩ c1_env).1.length = 2 ∧
    tt_missing_creds_guard ⟨"user", ""⟩ = false ∧
    tt_missing_creds_guard ⟨"", "pw"⟩ = true := by
  decide

/-- C10: constructing a `TouchstoneTests` always issues the login-page GET
(`__init__` calls `_get_session_tokens` unconditionally), and construction
raises exactly when the page holds no `<input name="_csrf_token">`
(`find` returns `None` and `.get('value')` raises `AttributeError`). -/
theorem C10_init_fetch_and_token_requirement (page : Html) :
    (ts_get_session_tokens page).1 = 1 ∧
    ((∃ t, (ts_get_session_tokens page).2 = .ok t) ↔
      (htmlFind (fun h => h.tagIs "input" && h.attrIs "name" "_csrf_token") page).isSome = true) := by
  refine ⟨rfl, ?_⟩
  cases hf : htmlFind (fun h => h.tagIs "input" && h.attrIs "name" "_csrf_token") page with
  | none => simp [ts_get_session_tokens, hf]
  | some e => simp [ts_get_session_tokens, hf]

/-- C8 counterexample: `TestText.request` is a bare
`self.session.request(*args, **kwargs)` with no method validation, so a PUT
— neither GET nor POST — is forwarded and a request is issued, where the
claim asserts rejection with no request for either client. -/
theorem C8_cex_testtext_put_forwarded :
    (strLower "PUT" ≠ "get" ∧ strLower "PUT" ≠ "post") ∧
    ttRequest "PUT" "https://testtext.com/api" =
      ([⟨"PUT", "https://testtext.com/api"⟩], .ok ()) := by
  decide

/-- C8 (amended): `TouchstoneTests.request` rejects any method whose
lower-casing is neither `get` nor `post` with an unsupported-method error
and issues no request, and forwards GET and POST (upper-cased, payload as
query params resp. form data) through the session; `TestText.request`
forwards every call unchecked, whatever the method. -/
theorem C8_method_gating (uri url url2 url3 : List Char) (m m2 m3 m4 : String)
    (p p2 p3 : Option (List (String × String))) (u4 : String) :
    (strLower m ≠ "get" → strLower m ≠ "post" →
      tsRequest uri url m p = ([], .error (.httpError "POST or GET requests only."))) ∧
    (strLower m2 = "post" →
      tsRequest uri url2 m2 p2 = ([⟨strUpper m2, ts_resolve_url uri url2, none, p2⟩], .ok ())) ∧
    (strLower m3 = "get" →
      tsRequest uri url3 m3 p3 = ([⟨strUpper m3, ts_resolve_url uri url3, p3, none⟩], .ok ())) ∧
    ttRequest m4 u4 = ([⟨m4, u4⟩], .ok ()) := by
  refine ⟨?_, ?_, ?_, rfl⟩
  · intro hg hp
    simp [tsRequest, hg, hp]
  · intro hp
    simp [tsRequest, hp]
  · intro hg
    by_cases hp : strLower m3 = "post"
    · rw [hg] at hp; exact absurd hp (by decide)
    · simp [tsRequest, hg, hp]

/-- C8 witness: the amended theorem applied at DELETE (rejected), `Post`
(forwarded as form data), `get` (forwarded as query params) and a TestText
PATCH (forwarded unchecked). -/
theorem C8_method_gating_witness :
    (strLower "DELETE" ≠ "get" ∧ strLower "DELETE" ≠ "post" ∧
     strLower "Post" = "post" ∧ strLower "get" = "get") ∧
    (tsRequest ts_uri_default "x".data "DELETE" none =
      ([], .error (.httpError "POST or GET requests only.")) ∧
     tsRequest ts_uri_default "x".data "Post" (some [("a", "b")]) =
      ([⟨strUpper "Post", ts_resolve_url ts_uri_default "x".data, none, some [("a", "b")]⟩], .ok ()) ∧
     tsRequest ts_uri_default "x".data "get" (some [("a", "b")]) =
      ([⟨strUpper "get", ts_resolve_url ts_uri_default "x".data, some [("a", "b")], none⟩], .ok ()) ∧
     ttRequest "PATCH" "/y" = ([⟨"PATCH", "/y"⟩], .ok ())) := by
  refine ⟨by decide, ?_, ?_, ?_, ?_⟩
  · exact (C8_method_gating ts_uri_default "x".data "x".data "x".data "DELETE" "Post" "get"
      "PATCH" none (some [("a", "b")]) (some [("a", "b")]) "/y").1 (by decide) (by decide)
  · exact (C8_method_gating ts_uri_default "x".data "x".data "x".data "DELETE" "Post" "get"
      "PATCH" none (some [("a", "b")]) (some [("a", "b")]) "/y").2.1 (by decide)
  · exact (C8_method_gating ts_uri_default "x".data "x".data "x".data "DELETE" "Post" "get"
      "PATCH" none (some [("a", "b")]) (some [("a", "b")]) "/y").2.2.1 (by decide)
  · exact (C8_method_gating ts_uri_default "x".data "x".data "x".data "DELETE" "Post" "get"
      "PATCH" none (some [("a", "b")]) (some [("a", "b")]) "/y").2.2.2

/-- C5: the Touchstone login-entry validation succeeds exactly when the
response status is OK and the final URL matches the configured base under
`check_valid_redirect`s normalization (scheme occurrences removed, `/`
stripped from the ends of both); and an OK status whose final URL does not
match yields the incorrect-credentials (authentication) error. -/
theorem C5_login_validation (uri : List Char) (r : TSLoginResp)
    (uri2 : List Char) (r2 : TSLoginResp) :
    (tsEnter uri r = .ok () ↔ (r.ok = true ∧ check_valid_redirect uri r.url = true)) ∧
    (r2.ok = true → check_valid_redirect uri2 r2.url = false →
      tsEnter uri2 r2 = .error (.connectionError "Incorrect credentials.")) := by
  constructor
  · cases hok : r.ok <;> cases hcv : check_valid_redirect uri r.url <;>
      simp [tsEnter, hok, hcv]
  · intro hok hcv
    simp [tsEnter, hok, hcv]

/-- C5 witness: a 2xx login response redirected back to the login page is
rejected as bad credentials even though the status was OK. -/
theorem C5_login_validation_witness :
    (true = true ∧ check_valid_redirect ts_uri_default "https://touchstonetests.io/login".data = false) ∧
    tsEnter ts_uri_default ⟨true, "https://touchstonetests.io/login".data⟩ =
      .error (.connectionError "Incorrect credentials.") :=
  ⟨⟨rfl, by decide⟩,
    (C5_login_validation ts_uri_default ⟨true, "https://touchstonetests.io/".data⟩
      ts_uri_default ⟨true, "https://touchstonetests.io/login".data⟩).2 rfl (by decide)⟩

/-- C3 counterexample: with correct credentials but a server rejecting the
login, `TestText.__enter__` raises; Python then skips `__exit__`, so the
session created in `__init__` is never closed — the close count over the
whole `with` block is 0, not the 1 the claim requires on this exit path. -/
theorem C3_cex_login_failure_skips_close :
    (ttEnter ⟨"user", "pw"⟩ c3_env).2 =
      .error (.valueError "Unsuccessful Login. Check the provided credentials.") ∧
    closeCalls (pyWith (ttEnter ⟨"user", "pw"⟩ c3_env).2 (fun _ => .ok ())) tt_exit_close_calls
      = 0 := by
  decide

/-- C3 (amended): for both clients, when the session-block entry succeeds,
`__exit__` — and with it `session.close()` — runs exactly once whatever the
body does, including when an upload inside the block raises; but when entry
(login) raises, Python never calls `__exit__`, so close runs zero times. -/
theorem C3_close_once_iff_entered (c : TTCreds) (env : TTEnv)
    (body : Unit → Except PyErr Unit)
    (c2 : TTCreds) (env2 : TTEnv) (e2 : PyErr) (body2 : Unit → Except PyErr Unit)
    (uri : List Char) (r : TSLoginResp) (body3 : Unit → Except PyErr Unit)
    (uri2 : List Char) (r2 : TSLoginResp) (e4 : PyErr) (body4 : Unit → Except PyErr Unit) :
    ((ttEnter c env).2 = .ok () →
      closeCalls (pyWith (ttEnter c env).2 body) tt_exit_close_calls = 1) ∧
    ((ttEnter c2 env2).2 = .error e2 →
      closeCalls (pyWith (ttEnter c2 env2).2 body2) tt_exit_close_calls = 0) ∧
    (tsEnter uri r = .ok () →
      closeCalls (pyWith (tsEnter uri r) body3) ts_exit_close_calls = 1) ∧
    (tsEnter uri2 r2 = .error e4 →
      closeCalls (pyWith (tsEnter uri2 r2) body4) ts_exit_close_calls = 0) := by
  refine ⟨?_, ?_, ?_, ?_⟩ <;> intro h <;>
    simp [h, pyWith, closeCalls, tt_exit_close_calls, ts_exit_close_calls]

/-- C3 witness: successful logins (TestText and Touchstone) with a raising
body still close exactly once; failing logins close zero times. -/
theorem C3_close_once_iff_entered_witness :
    ((ttEnter ⟨"user", "pw"⟩ c1_env).2 = .ok () ∧
     (ttEnter ⟨"user", "pw"⟩ c3_env).2 =
       .error (.valueError "Unsuccessful Login. Check the provided credentials.") ∧
     tsEnter ts_uri_default ⟨true, "https://touchstonetests.io".data⟩ = .ok () ∧
     tsEnter ts_uri_default ⟨false, "https://touchstonetests.io".data⟩ =
       .error (.httpError "Non-2XX Response.")) ∧
    (closeCalls (pyWith (ttEnter ⟨"user", "pw"⟩ c1_env).2
        (fun _ => .error (.valueError "upload failed"))) tt_exit_close_calls = 1 ∧
     closeCalls (pyWith (ttEnter ⟨"user", "pw"⟩ c3_env).2
        (fun _ => .ok ())) tt_exit_close_calls = 0 ∧
     closeCalls (pyWith (tsEnter ts_uri_default ⟨true, "https://touchstonetests.io".data⟩)
        (fun _ => .error (.valueError "upload failed"))) ts_exit_close_calls = 1 ∧
     closeCalls (pyWith (tsEnter ts_uri_default ⟨false, "https://touchstonetests.io".data⟩)
        (fun _ => .ok ())) ts_exit_close_calls = 0) := by
  have h := C3_close_once_iff_entered ⟨"user", "pw"⟩ c1_env
    (fun _ => .error (.valueError "upload failed"))
    ⟨"user", "pw"⟩ c3_env (.valueError "Unsuccessful Login. Check the provided credentials.")
    (fun _ => .ok ())
    ts_uri_default ⟨true, "https://touchstonetests.io".data⟩
    (fun _ => .error (.valueError "upload failed"))
    ts_uri_default ⟨false, "https://touchstonetests.io".data⟩ (.httpError "Non-2XX Response.")
    (fun _ => .ok ())
  exact ⟨⟨by decide, by decide, by decide, by decide⟩,
    h.1 (by decide), h.2.1 (by decide), h.2.2.1 (by decide), h.2.2.2 (by decide)⟩

/-- C4: `parse_file_type`s dispatch keeps content byte-identical for every
supported input kind — handles pass through, bytes and `BytesIO` values are
wrapped under the synthetic name `filename.tsv`, a string that does not end
in the recognized `tsv` suffix or is not longer than 4 characters is wrapped
as literal content, a recognized path string is opened and yields exactly
the file bytes — and an unsupported input type raises `ValueError`. -/
theorem C4_normalization_byte_identical (fs : List Char → Option Bytes)
    (c b bb cb : Bytes) (s1 s2 : List Char) :
    parse_dispatch fs (.handle c) = .ok (.handle c) ∧
    parse_dispatch fs (.bytes b) = .ok (.tupleBytes "filename.tsv" b) ∧
    parse_dispatch fs (.buffer bb) = .ok (.tupleBytes "filename.tsv" bb) ∧
    (¬((rpartLastDot s1).map Char.toLower = "tsv".data ∧ s1.length > 4) →
      parse_dispatch fs (.str s1) = .ok (.tupleStr "filename.tsv" s1)) ∧
    ((rpartLastDot s2).map Char.toLower = "tsv".data → s2.length > 4 → fs s2 = some cb →
      parse_dispatch fs (.str s2) = .ok (.handle cb)) ∧
    parse_dispatch fs .other =
      .error (.valueError "file argument may only be string, bytes, or io.BytesIO object.") := by
  refine ⟨rfl, rfl, rfl, ?_, ?_, rfl⟩
  · intro hnot
    have hcond : (((rpartLastDot s1).map Char.toLower == "tsv".data) &&
        decide (s1.length > 4)) = false := by
      rcases Decidable.em ((rpartLastDot s1).map Char.toLower = "tsv".data) with he | he
      · rcases Decidable.em (s1.length > 4) with hl | hl
        · exact absurd ⟨he, hl⟩ hnot
        · simp [hl]
      · simp [he]
    simp [parse_dispatch, hcond]
  · intro he hl hfs
    simp [parse_dispatch, he, hl, hfs]

/-- C4 witness: the dispatch applied to a concrete handle, bytes, buffer, a
short literal string, a path string `data.tsv` backed by a one-byte file,
and an unsupported argument. -/
theorem C4_normalization_byte_identical_witness :
    (¬((rpartLastDot "hi".data).map Char.toLower = "tsv".data ∧ "hi".data.length > 4) ∧
     (rpartLastDot "data.tsv".data).map Char.toLower = "tsv".data ∧
     "data.tsv".data.length > 4 ∧
     (fun (_ : List Char) => some ([7] : Bytes)) "data.tsv".data = some [7]) ∧
    (parse_dispatch (fun _ => some [7]) (.handle [1, 2]) = .ok (.handle [1, 2]) ∧
     parse_dispatch (fun _ => some [7]) (.bytes [3]) = .ok (.tupleBytes "filename.tsv" [3]) ∧
     parse_dispatch (fun _ => some [7]) (.buffer [4]) = .ok (.tupleBytes "filename.tsv" [4]) ∧
     parse_dispatch (fun _ => some [7]) (.str "hi".data) = .ok (.tupleStr "filename.tsv" "hi".data) ∧
     parse_dispatch (fun _ => some [7]) (.str "data.tsv".data) = .ok (.handle [7]) ∧
     parse_dispatch (fun _ => some [7]) .other =
       .error (.valueError "file argument may only be string, bytes, or io.BytesIO object.")) := by
  have h := C4_normalization_byte_identical (fun _ => some [7]) [1, 2] [3] [4] [7]
    "hi".data "data.tsv".data
  exact ⟨⟨by decide, by decide, by decide, rfl⟩,
    h.1, h.2.1, h.2.2.1, h.2.2.2.1 (by decide), h.2.2.2.2.1 (by decide) (by decide) rfl,
    h.2.2.2.2.2⟩

/-- C9: whenever the normalized upload input is an open file handle (one
supplied directly or one `parse_file_type` opened from a path string) and
the upload POST completes, `TestText.upload` closes the handle — the
`close()` sits between the POST and the success check, so it runs on the
success branch and on the branch that raises for a missing marker alike. -/
theorem C9_handle_closed_after_request (env : TTUploadEnv) (f : FileInput)
    (maxB : Nat) (ct : String) (u : String) (c : Bytes) :
    tt_get_upload_uri ct = .ok u →
    parse_file_type env.fs f maxB = .ok (.handle c) →
    (ttUpload env f maxB ct).handleClosed = true := by
  intro h1 h2
  simp [ttUpload, h1, h2]
  rcases Decidable.em (tt_successful env.response tt_upload_check = true) with hs | hs
  · simp [hs]
  · simp [Bool.eq_false_iff.mpr (fun hx => hs hx)]

/-- C9 witness: a directly supplied handle uploaded against a server whose
response lacks the success marker (the raising branch) is still closed; the
hypotheses are discharged at `content_type = "email"`, `max_bytes` default. -/
theorem C9_handle_closed_after_request_witness :
    (tt_get_upload_uri "email" = .ok "/upload" ∧
     parse_file_type (fun _ => none) (.handle [1]) 10000000 = .ok (.handle [1])) ∧
    (ttUpload ⟨fun _ => none, ⟨"no marker here", .text ""⟩⟩ (.handle [1]) 10000000
      "email").handleClosed = true :=
  ⟨⟨by decide, by decide⟩,
    C9_handle_closed_after_request ⟨fun _ => none, ⟨"no marker here", .text ""⟩⟩ (.handle [1])
      10000000 "email" "/upload" [1] (by decide) (by decide)⟩

/-- C7 counterexample: a failure body whose first alert-role element is a
`<span role="alert">Boom</span>` (and which holds no `div` with that role):
the claim says the raised message carries that element's text, but
`_get_failure_reason` searches `div` tags only, so the code reports
`Unknown reason.` and the message does not contain `Boom`. -/
theorem C7_cex_alert_span_ignored :
    spec_first_alert_elem c7_html =
      some (.elem "span" [("role", "alert")] (htmlListOf [.text "Boom"])) ∧
    Html.getTextStrip (.elem "span" [("role", "alert")] (htmlListOf [.text "Boom"])) = "Boom" ∧
    c7_resp.text ≠ "unauthorized" ∧
    tt_get_failure_reason c7_resp "email" = "Unknown reason." ∧
    pyInStr "Boom" (tt_upload_fail_msg c7_resp "email") = false := by
  decide

/-- C7 (amended): when the upload response lacks the success marker the
upload raises a `ValueError` whose message is built from
`_get_failure_reason`; an `"unauthorized"` body yields a message mentioning
the authorization failure, extended by the SMS note exactly when the content
type lower-cases to `sms`; any other body yields the stripped text of the
first `div` element with `role="alert"`, or the unknown-reason message when
no such `div` exists. -/
theorem C7_failure_reason_extraction (env : TTUploadEnv) (f : FileInput) (mB : Nat)
    (ct : String) (u : String) (pf : ParsedFile)
    (r2 : TTResponse) (ct2 : String) (r3 : TTResponse) (ct3 : String)
    (r4 : TTResponse) (ct4 : String) :
    (tt_get_upload_uri ct = .ok u → parse_file_type env.fs f mB = .ok pf →
      tt_successful env.response tt_upload_check = false →
      (ttUpload env f mB ct).result = .error (.valueError (tt_upload_fail_msg env.response ct))) ∧
    (r2.text = "unauthorized" → strLower ct2 = "sms" →
      tt_upload_fail_msg r2 ct2 =
        "Unsucccessful Upload: unauthorized (sms upload might not be permitted)" ∧
      pyInStr "unauthorized" (tt_upload_fail_msg r2 ct2) = true) ∧
    (r3.text = "unauthorized" → strLower ct3 ≠ "sms" →
      tt_upload_fail_msg r3 ct3 = "Unsucccessful Upload: unauthorized" ∧
      pyInStr "unauthorized" (tt_upload_fail_msg r3 ct3) = true) ∧
    (r4.text ≠ "unauthorized" →
      tt_upload_fail_msg r4 ct4 = "Unsucccessful Upload: " ++
        (match htmlFind (fun h => h.tagIs "div" && h.attrIs "role" "alert") r4.body with
         | some d => d.getTextStrip
         | none => "Unknown reason.")) := by
  refine ⟨?_, ?_, ?_, ?_⟩
  · intro h1 h2 h3
    simp [ttUpload, h1, h2, h3]
  · intro ht hs
    have : tt_upload_fail_msg r2 ct2 =
        "Unsucccessful Upload: unauthorized (sms upload might not be permitted)" := by
      simp [tt_upload_fail_msg, tt_get_failure_reason, ht, hs]
    exact ⟨this, by rw [this]; decide⟩
  · intro ht hs
    have : tt_upload_fail_msg r3 ct3 = "Unsucccessful Upload: unauthorized" := by
      simp [tt_upload_fail_msg, tt_get_failure_reason, ht, hs]
    exact ⟨this, by rw [this]; decide⟩
  · intro ht
    simp [tt_upload_fail_msg, tt_get_failure_reason, ht]

/-- C7 witness: the amended theorem applied to a marker-less response (the
raising branch), an `"unauthorized"` body with content type `SMS`, one with
content type `email`, and the `c7_resp` body with no alert `div`. -/
theorem C7_failure_reason_extraction_witness :
    (tt_get_upload_uri "email" = .ok "/upload" ∧
     parse_file_type (fun _ => none) (.bytes [1]) 10000000 =
       .ok (.tupleBytes "filename.tsv" [1]) ∧
     tt_successful c7_resp tt_upload_check = false ∧
     strLower "SMS" = "sms" ∧ strLower "email" ≠ "sms" ∧
     c7_resp.text ≠ "unauthorized") ∧
    ((ttUpload ⟨fun _ => none, c7_resp⟩ (.bytes [1]) 10000000 "email").result =
       .error (.valueError (tt_upload_fail_msg c7_resp "email")) ∧
     tt_upload_fail_msg ⟨"unauthorized", .text ""⟩ "SMS" =
       "Unsucccessful Upload: unauthorized (sms upload might not be permitted)" ∧
     tt_upload_fail_msg ⟨"unauthorized", .text ""⟩ "email" =
       "Unsucccessful Upload: unauthorized" ∧
     tt_upload_fail_msg c7_resp "email" = "Unsucccessful Upload: " ++
       (match htmlFind (fun h => h.tagIs "div" && h.attrIs "role" "alert") c7_resp.body with
        | some d => d.getTextStrip
        | none => "Unknown reason.")) := by
  have h := C7_failure_reason_extraction ⟨fun _ => none, c7_resp⟩ (.bytes [1]) 10000000
    "email" "/upload" (.tupleBytes "filename.tsv" [1])
    ⟨"unauthorized", .text ""⟩ "SMS" ⟨"unauthorized", .text ""⟩ "email" c7_resp "email"
  exact ⟨⟨by decide, by decide, by decide, by decide, by decide, by decide⟩,
    h.1 (by decide) (by decide) (by decide),
    (h.2.1 rfl (by decide)).1, (h.2.2.1 rfl (by decide)).1, h.2.2.2 (by decide)⟩

/-- C2 (code bug): the claim says oversized content is rejected before the
upload request for every supported input kind.  Both size checks measure
`sys.getsizeof` of the object they hold: for an open file handle that is a
small content-independent constant, so a handle over arbitrarily large
content passes the TestText check at the default 10,000,000-byte limit and
the upload POST is issued; likewise a Touchstone path input is opened into a
file object and passes the fixed 10,485,760-byte assertion whatever the file
size. -/
theorem C2_size_check_skipped_for_handles (env : TTUploadEnv) (c : Bytes)
    (fs2 : List Char → Option Bytes) (p : List Char) (c2 : Bytes) :
    (10000000 < c.length →
      parse_file_type env.fs (.handle c) 10000000 = .ok (.handle c) ∧
      (ttUpload env (.handle c) 10000000 "email").requests =
        [⟨"POST", "https://testtext.com/upload"⟩]) ∧
    (10485760 < c2.length → fs2 p = some c2 →
      ts_file_to_bytes fs2 (.str p) "data.csv" = .ok (.handle c2)) := by
  constructor
  · intro _
    have hparse : parse_file_type env.fs (.handle c) 10000000 = .ok (.handle c) := by
      simp [parse_file_type, parse_dispatch, check_file_size, getsizeofHandle]
    refine ⟨hparse, ?_⟩
    have huri : tt_get_upload_uri "email" = .ok "/upload" := by decide
    simp [ttUpload, huri, hparse, tt_url, tt_email_upload_uri]
    rcases Decidable.em (tt_successful env.response tt_upload_check = true) with hs | hs
    · simp [hs]
    · simp [Bool.eq_false_iff.mpr (fun hx => hs hx)]
  · intro _ hfs
    simp [ts_file_to_bytes, hfs, ts_size_check, getsizeofHandle]
    decide

/-- C2 witness: a handle over 10,000,001 bytes sails through TestText's
size check and the POST goes out; a path to a 10,485,761-byte `.csv` sails
through Touchstone's assertion. -/
theorem C2_size_check_skipped_for_handles_witness :
    (10000000 < (List.replicate 10000001 (0 : Nat)).length ∧
     10485760 < (List.replicate 10485761 (0 : Nat)).length ∧
     (fun (_ : List Char) => some (List.replicate 10485761 (0 : Nat))) "big.csv".data =
       some (List.replicate 10485761 (0 : Nat))) ∧
    (parse_file_type (fun _ => none) (.handle (List.replicate 10000001 0)) 10000000 =
       .ok (.handle (List.replicate 10000001 0)) ∧
     (ttUpload ⟨fun _ => none, ⟨"ok ROLL BACK", .text ""⟩⟩
        (.handle (List.replicate 10000001 0)) 10000000 "email").requests =
       [⟨"POST", "https://testtext.com/upload"⟩] ∧
     ts_file_to_bytes (fun _ => some (List.replicate 10485761 0)) (.str "big.csv".data)
        "data.csv" = .ok (.handle (List.replicate 10485761 0))) := by
  have h := C2_size_check_skipped_for_handles
    ⟨fun _ => none, ⟨"ok ROLL BACK", .text ""⟩⟩ (List.replicate 10000001 0)
    (fun _ => some (List.replicate 10485761 0)) "big.csv".data (List.replicate 10485761 0)
  have hlen1 : 10000000 < (List.replicate 10000001 (0 : Nat)).length := by
    rw [List.length_replicate]; omega
  have hlen2 : 10485760 < (List.replicate 10485761 (0 : Nat)).length := by
    rw [List.length_replicate]; omega
  exact ⟨⟨hlen1, hlen2, rfl⟩, (h.1 hlen1).1, (h.1 hlen1).2, h.2 hlen2 rfl⟩

/-! ## Helper lemmas: the Python split used for file-id extraction -/

/-- The result of `pySplitGo` does not depend on the fuel, as long as the
fuel is at least the length of the string. -/
theorem pySplitGo_fuel_irrel (sep : List Char) :
    ∀ f1 f2 s, s.length ≤ f1 → s.length ≤ f2 →
      pySplitGo sep f1 s = pySplitGo sep f2 s := by
  intro f1
  induction f1 with
  | zero =>
    intro f2 s h1 _
    have hs : s = [] := List.eq_nil_of_length_eq_zero (Nat.le_zero.mp h1)
    subst hs
    cases f2 <;> simp [pySplitGo]
  | succ f ih =>
    intro f2 s h1 h2
    match s with
    | [] => cases f2 <;> simp [pySplitGo]
    | c :: rest =>
      match f2 with
      | 0 => exact absurd h2 (by simp)
      | f2' + 1 =>
        simp only [pySplitGo]
        by_cases hc : (sep.isPrefixOf (c :: rest) && !sep.isEmpty) = true
        · rw [if_pos hc, if_pos hc]
          have hsep : 1 ≤ sep.length := by
            rcases sep with _ | _
            · simp at hc
            · simp
          have hd : ((c :: rest).drop sep.length).length ≤ f := by
            simp only [List.length_drop, List.length_cons]
            simp only [List.length_cons] at h1
            omega
          have hd2 : ((c :: rest).drop sep.length).length ≤ f2' := by
            simp only [List.length_drop, List.length_cons]
            simp only [List.length_cons] at h2
            omega
          rw [ih f2' _ hd hd2]
        · rw [if_neg hc, if_neg hc]
          have hr : rest.length ≤ f := by simp only [List.length_cons] at h1; omega
          have hr2 : rest.length ≤ f2' := by simp only [List.length_cons] at h2; omega
          rw [ih f2' rest hr hr2]

/-- No character of `'?file_id='` other than the first is a `'?'`, so no
occurrence of that separator can begin strictly inside another one. -/
theorem fidsep_no_overlap (k : Nat) (h1 : 1 ≤ k) (h8 : k ≤ 8) :
    FIDSEP[k]? ≠ some '?' := by
  interval_cases k <;> decide


/-- `pySplitGo` at any sufficient fuel computes `pySplit`. -/
theorem pySplitGo_eq_pySplit (sep : List Char) (f : Nat) (s : List Char) (h : s.length ≤ f) :
    pySplitGo sep f s = pySplit sep s :=
  pySplitGo_fuel_irrel sep f s.length s h le_rfl

/-- Splitting any string that ends in `'?file_id=42'` on `'?file_id='`
yields at least two groups, the last of which is `'42'`. -/
theorem pySplit_fid_shape :
    ∀ (n : Nat) (p : List Char), p.length ≤ n →
      ∃ g gs, pySplit FIDSEP (p ++ "?file_id=42".data) = (g :: gs) ++ ["42".data] := by
  intro n
  induction n using Nat.strong_induction_on with
  | _ n ih =>
    intro p hp
    match p with
    | [] => exact ⟨[], [], by decide⟩
    | c :: p' =>
      have hcons : (c :: p') ++ "?file_id=42".data = c :: (p' ++ "?file_id=42".data) := rfl
      have hlen : ((c :: p') ++ "?file_id=42".data).length =
          (p' ++ "?file_id=42".data).length + 1 := by simp
      have hstep : pySplit FIDSEP ((c :: p') ++ "?file_id=42".data) =
          pySplitGo FIDSEP ((p' ++ "?file_id=42".data).length + 1)
            (c :: (p' ++ "?file_id=42".data)) := by
        rw [show pySplit FIDSEP ((c :: p') ++ "?file_id=42".data) =
            pySplitGo FIDSEP ((c :: p') ++ "?file_id=42".data).length
              ((c :: p') ++ "?file_id=42".data) from rfl, hlen, hcons]
      rw [hstep]
      simp only [pySplitGo]
      by_cases hc : (FIDSEP.isPrefixOf (c :: (p' ++ "?file_id=42".data)) && !FIDSEP.isEmpty) = true
      · rw [if_pos hc]
        by_cases h9 : 9 ≤ (c :: p').length
        · -- the matched separator lies 9 characters in; recurse on the shorter prefix
          have hdrop : (c :: (p' ++ "?file_id=42".data)).drop FIDSEP.length =
              ((c :: p').drop 9) ++ "?file_id=42".data := by
            rw [← hcons, show FIDSEP.length = 9 from by decide,
              List.drop_append_eq_append_drop,
              show (9 - (c :: p').length) = 0 from by omega]
            rfl
          rw [hdrop]
          have hm : ((c :: p').drop 9).length < n := by
            simp only [List.length_drop, List.length_cons]
            simp only [List.length_cons] at hp
            omega
          obtain ⟨g, gs, hsh⟩ := ih ((c :: p').drop 9).length hm ((c :: p').drop 9) le_rfl
          rw [pySplitGo_eq_pySplit FIDSEP _ _ (by
            simp only [List.length_append, List.length_drop, List.length_cons]
            omega), hsh]
          exact ⟨[], g :: gs, rfl⟩
        · -- no separator occurrence can start within the first 8 characters
          exfalso
          have hpre : FIDSEP <+: (c :: (p' ++ "?file_id=42".data)) := by
            rw [Bool.and_eq_true] at hc
            exact (List.isPrefixOf_iff_prefix).mp hc.1
          obtain ⟨t, ht⟩ := hpre
          have hk1 : 1 ≤ (c :: p').length := by simp
          have hk8 : (c :: p').length ≤ 8 := by omega
          have hval : FIDSEP[(c :: p').length]? = some '?' := by
            have hgl : (FIDSEP ++ t)[(c :: p').length]? = FIDSEP[(c :: p').length]? :=
              List.getElem?_append_left (by
                rw [show FIDSEP.length = 9 from by decide]; omega)
            have hgr2 : ((c :: p') ++ "?file_id=42".data)[(c :: p').length]? =
                ("?file_id=42".data)[(c :: p').length - (c :: p').length]? :=
              List.getElem?_append_right le_rfl
            rw [ht, ← hcons] at hgl
            rw [← hgl, hgr2, Nat.sub_self]
            decide
          exact fidsep_no_overlap (c :: p').length hk1 hk8 hval
      · rw [if_neg hc]
        have hm : p'.length < n := by
          simp only [List.length_cons] at hp
          omega
        obtain ⟨g, gs, hsh⟩ := ih p'.length hm p' le_rfl
        rw [show pySplitGo FIDSEP (p' ++ "?file_id=42".data).length
            (p' ++ "?file_id=42".data) =
            pySplit FIDSEP (p' ++ "?file_id=42".data) from rfl, hsh, List.cons_append]
        exact ⟨c :: g, gs, rfl⟩

/-- `url.split('?file_id=')[-1]` on a URL ending in `'?file_id=42'` is
`'42'`. -/
theorem extract_fid_of_suffix (p : List Char) :
    extract_fid (p ++ "?file_id=42".data) = "42" := by
  obtain ⟨g, gs, hsh⟩ := pySplit_fid_shape p.length p le_rfl
  unfold extract_fid pyLastD
  rw [hsh, List.getLastD_concat]

/-- C6: for every initial-upload response whose final URL ends in
`?file_id=42` and whose document holds a first `review_data` element with
exactly two `import_field` header cells — `data-number` 0 with selected
option value 5 and `data-number` 1 with no selected option — the derived
table-structure mapping is `{columns[0]: 5, columns[1]: ""}` and the
finalize payload is exactly `fid = 42`, the date-format code, and that
mapping. -/
theorem C6_table_structure_and_fid (doc d th0 th1 o0 : Html) (pre : List Char) (df : String)
    (hrd : find_review_data doc = some d)
    (hif : import_fields d = [th0, th1])
    (hdn0 : th0.attr "data-number" = some "0")
    (hsel0 : find_selected_option th0 = some o0)
    (hval0 : o0.attr "value" = some "5")
    (hdn1 : th1.attr "data-number" = some "1")
    (hsel1 : find_selected_option th1 = none) :
    parse_table_structure doc = some [("columns[0]", some "5"), ("columns[1]", some "")] ∧
    touchstone_table_data (pre ++ "?file_id=42".data) df doc =
      some [("fid", some "42"), ("dateFormat", some df),
            ("columns[0]", some "5"), ("columns[1]", some "")] := by
  have hparse : parse_table_structure doc =
      some [("columns[0]", some "5"), ("columns[1]", some "")] := by
    simp only [parse_table_structure, hrd, hif, List.foldl_cons, List.foldl_nil,
      hdn0, hsel0, hval0, hdn1, hsel1, Option.getD_some]
    decide
  refine ⟨hparse, ?_⟩
  simp only [touchstone_table_data, hparse, Option.map_some', extract_fid_of_suffix pre,
    List.foldl_cons, List.foldl_nil]
  simp [dictSet]

/-- C6 witness: the theorem applied to the concrete fixture document
`c6_doc` and the URL `https://touchstonetests.io/import?file_id=42`. -/
theorem C6_table_structure_and_fid_witness :
    (find_review_data c6_doc = some c6_table ∧
     import_fields c6_table = [c6_th0, c6_th1] ∧
     c6_th0.attr "data-number" = some "0" ∧
     find_selected_option c6_th0 = some c6_opt ∧
     c6_opt.attr "value" = some "5" ∧
     c6_th1.attr "data-number" = some "1" ∧
     find_selected_option c6_th1 = none) ∧
    (parse_table_structure c6_doc = some [("columns[0]", some "5"), ("columns[1]", some "")] ∧
     touchstone_table_data ("https://touchstonetests.io/import".data ++ "?file_id=42".data)
        "Y-m-d" c6_doc =
       some [("fid", some "42"), ("dateFormat", some "Y-m-d"),
             ("columns[0]", some "5"), ("columns[1]", some "")]) := by
  have h := C6_table_structure_and_fid c6_doc c6_table c6_th0 c6_th1 c6_opt
    "https://touchstonetests.io/import".data "Y-m-d"
    (by decide) (by decide) (by decide) (by decide) (by decide) (by decide) (by decide)
  exact ⟨⟨by decide, by decide, by decide, by decide, by decide, by decide, by decide⟩, h⟩
